import Mathlib

/-!
Verification development for the ESP WiFi Manager core
(wifi_manager.c, kref.h, kutils.h, wifi_manager.h).

The C sources are shallowly embedded: the configuration value type
(struct wifi_cfg), the event-flag set, the NVS persistence adapter
(save_config / get_saved_config), the radio-apply helper (set_wifi_cfg),
the radio-snapshot helper (get_wifi_cfg), the state-machine step
(handle_wifi) and the public API entry points are translated into
executable Lean functions.  The external collaborators (radio driver,
NVS flash, DHCP/DNS adapter, FreeRTOS timer and mutex) are modelled as
explicit environment records carrying the result codes the driver calls
would return and flags recording whether the mutex / timer operations
succeed.  Driver and NVS calls are recorded in an action trace so that
ordering properties of a step can be stated.  Machine integers: FreeRTOS
tick values are Nat reduced mod 2 ^ 32 inside time_after, exactly like
the uint32 subtraction in kutils.h; esp_err_t is Int with the concrete
esp-idf error codes.
-/

/-! Error codes (esp_err.h, nvs.h). -/

abbrev esp_err_t := Int

def ESP_OK : esp_err_t := 0

def ESP_FAIL : esp_err_t := -1

def ESP_ERR_NO_MEM : esp_err_t := 0x101

def ESP_ERR_INVALID_STATE : esp_err_t := 0x103

def ESP_ERR_NOT_FOUND : esp_err_t := 0x105

def ESP_ERR_TIMEOUT : esp_err_t := 0x107

/-- nvs_open / nvs_get on a missing namespace or key. -/
def ESP_ERR_NVS_NOT_FOUND : esp_err_t := 0x1102

/-- Stand-in code for a failing NVS operation in the fault model; the C code
only ever tests results against ESP_OK, so any fixed nonzero code is faithful. -/
def ESP_ERR_NVS_OP_FAILED : esp_err_t := 0x1101

/-! WiFi modes (esp_wifi_types.h enum wifi_mode_t). -/

def WIFI_MODE_NULL : Nat := 0

def WIFI_MODE_STA : Nat := 1

def WIFI_MODE_AP : Nat := 2

def WIFI_MODE_APSTA : Nat := 3

def WIFI_SCAN_TYPE_ACTIVE : Nat := 1

/-! State enum (wifi_manager.h enum wmngr_state); the numeric ordering is
load-bearing for the busy check, so states are embedded as the C values. -/

def wmngr_state_failed : Nat := 0

def wmngr_state_connected : Nat := 1

def wmngr_state_idle : Nat := 2

def wmngr_state_update : Nat := 3

def wmngr_state_wps_start : Nat := 4

def wmngr_state_wps_active : Nat := 5

def wmngr_state_connecting : Nat := 6

def wmngr_state_disconnecting : Nat := 7

def wmngr_state_fallback : Nat := 8

/-! Tick constants (wifi_manager.c); portTICK_PERIOD_MS is fixed at the
usual 10 ms FreeRTOS tick.  None of the proved properties depend on the
concrete values, only on CFG_DELAY and CFG_TICKS being positive. -/

def portTICK_PERIOD_MS : Nat := 10

def CFG_TIMEOUT : Nat := 60 * 1000 / portTICK_PERIOD_MS

def CFG_TICKS : Nat := 1000 / portTICK_PERIOD_MS

def CFG_DELAY : Nat := 100 / portTICK_PERIOD_MS

def MAX_AP_CLIENTS : Nat := 3

def TCPIP_ADAPTER_DNS_MAX : Nat := 3

/-- kutils.h time_after(a, b): the uint32 difference b - a viewed as a signed
32-bit value is negative.  Inputs are tick counts, reduced mod 2 ^ 32. -/
def TICK_MOD : Nat := 2 ^ 32

def time_after (a b : Nat) : Bool :=
  decide (2 ^ 31 ≤ (b + (TICK_MOD - a % TICK_MOD)) % TICK_MOD)

/-! Configuration value type (struct wifi_cfg).  The esp-idf aggregates
(wifi_config_t for AP and STA, tcpip_adapter_ip_info_t, the DNS table)
are opaque blobs to the manager: it only memcpy / memcmp / memset them.
They are embedded as abstract values: the AP config keeps its
max_connection field visible because set_wifi_cfg writes it, the rest of
the AP blob and the whole STA / IP blobs are single abstract scalars
where 0 plays the role of the all-zero (memset) pattern. -/

structure ApCfg where
  maxConnection : Nat
  blob : Nat
deriving DecidableEq, Repr

structure WifiCfg where
  is_default : Bool
  mode : Nat
  ap : ApCfg
  ap_ip_info : Nat
  sta : Nat
  sta_static : Bool
  sta_ip_info : Nat
  sta_dns_info : List Nat
  sta_connect : Bool
deriving DecidableEq, Repr

/-- The all-zero wifi_cfg produced by memset(cfg, 0, sizeof(*cfg)). -/
def zeroWifiCfg : WifiCfg :=
  ⟨false, 0, ⟨0, 0⟩, 0, 0, false, 0, List.replicate TCPIP_ADAPTER_DNS_MAX 0, false⟩

/-! Event-flag set (the BIT_* event group bits of wifi_manager.c). -/

structure EventBits where
  trigger : Bool
  sta_start : Bool
  sta_connected : Bool
  sta_got_ip : Bool
  ap_start : Bool
  scan_start : Bool
  scan_running : Bool
  scan_done : Bool
  wps_success : Bool
  wps_failed : Bool
deriving DecidableEq, Repr

def noEvents : EventBits :=
  ⟨false, false, false, false, false, false, false, false, false, false⟩

/-! Action trace.  Each constructor records one call the manager makes into
the radio driver, the IP adapter, the NVS store, or one write of
cfg_state.state, in program order. -/

inductive WAct where
  | scanStop
  | scanReq (showHidden : Bool) (scanType : Nat)
  | disconnect
  | wifiRestore
  | setMode (m : Nat)
  | setConfigAp (c : ApCfg)
  | setConfigSta (c : Nat)
  | dhcpStop
  | dhcpStart
  | setDns (idx : Nat) (v : Nat)
  | wifiStart
  | wifiConnect
  | wpsEnable
  | wpsStartAct
  | wpsDisable
  | stateWrite (s : Nat)
  | persist (c : WifiCfg)
deriving DecidableEq, Repr

/-! Radio driver fault model for set_wifi_cfg: the result each driver call
would return.  The dhcp start / stop calls are (void) casts in the source
and so carry no result. -/

structure DriverResults where
  restoreRes : esp_err_t
  setModeRes : esp_err_t
  setCfgApRes : esp_err_t
  setCfgStaRes : esp_err_t
  setDnsRes : List esp_err_t
  startRes : esp_err_t
  connectRes : esp_err_t
deriving DecidableEq, Repr

def drvOk : DriverResults := ⟨ESP_OK, ESP_OK, ESP_OK, ESP_OK, [], ESP_OK, ESP_OK⟩

/-- The DNS loop of set_wifi_cfg: entries whose address is ip_addr_isany
(modelled as 0) are skipped; the first failing tcpip_adapter_set_dns_info
jumps to on_exit with its error.  Returns the early-exit error (if any)
and the setDns actions issued. -/
def dns_loop (rs : List esp_err_t) : List Nat → Nat → Option esp_err_t × List WAct
  | [], _ => (none, [])
  | d :: ds, idx =>
    if d = 0 then dns_loop rs ds (idx + 1)
    else if rs.getD idx ESP_OK ≠ ESP_OK then
      (some (rs.getD idx ESP_OK), [WAct.setDns idx d])
    else
      let t := dns_loop rs ds (idx + 1)
      (t.1, WAct.setDns idx d :: t.2)

/-- Result of set_wifi_cfg: the returned esp_err_t, the value stored into
cfg_state.current (the memmove at function entry, i.e. the argument as
passed), the argument struct after its in-place mutation (max_connection
is forced to MAX_AP_CLIENTS when the mode bears an AP), and the call
trace. -/
structure ApplyOut where
  res : esp_err_t
  current : WifiCfg
  cfg : WifiCfg
  acts : List WAct
deriving Repr

/-- wifi_manager.c set_wifi_cfg.  Faithful detail: every driver result is
only logged and then overwritten by the next call, so the returned value
is the result of the last call made (esp_wifi_connect when a connect is
attempted, else esp_wifi_start), except that a DNS failure exits early
with its own error. -/
def set_wifi_cfg (drv : DriverResults) (cfg0 : WifiCfg) : ApplyOut :=
  let cfg1 :=
    if cfg0.mode = WIFI_MODE_APSTA ∨ cfg0.mode = WIFI_MODE_AP then
      { cfg0 with ap := { cfg0.ap with maxConnection := MAX_AP_CLIENTS } }
    else cfg0
  let acts1 :=
    [WAct.wifiRestore, WAct.setMode cfg0.mode] ++
      (if cfg0.mode = WIFI_MODE_APSTA ∨ cfg0.mode = WIFI_MODE_AP then
        [WAct.setConfigAp cfg1.ap]
      else [])
  if cfg0.mode = WIFI_MODE_APSTA ∨ cfg0.mode = WIFI_MODE_STA then
    let acts2 := acts1 ++ [WAct.setConfigSta cfg1.sta]
    if cfg1.sta_static then
      let d := dns_loop drv.setDnsRes cfg1.sta_dns_info 0
      match d.1 with
      | some e => ⟨e, cfg0, cfg1, acts2 ++ [WAct.dhcpStop] ++ d.2⟩
      | none =>
        if cfg1.sta_connect then
          ⟨drv.connectRes, cfg0, cfg1,
            acts2 ++ [WAct.dhcpStop] ++ d.2 ++ [WAct.wifiStart, WAct.wifiConnect]⟩
        else
          ⟨drv.startRes, cfg0, cfg1,
            acts2 ++ [WAct.dhcpStop] ++ d.2 ++ [WAct.wifiStart]⟩
    else
      if cfg1.sta_connect then
        ⟨drv.connectRes, cfg0, cfg1,
          acts2 ++ [WAct.dhcpStart, WAct.wifiStart, WAct.wifiConnect]⟩
      else
        ⟨drv.startRes, cfg0, cfg1, acts2 ++ [WAct.dhcpStart, WAct.wifiStart]⟩
  else
    ⟨drv.startRes, cfg0, cfg1, acts1 ++ [WAct.wifiStart]⟩

/-! Radio snapshot environment for get_wifi_cfg: what the radio and the IP
adapter would answer. -/

structure RadioEnv where
  getModeRes : esp_err_t
  mode : Nat
  getStaRes : esp_err_t
  staCfg : Nat
  dhcpRes : esp_err_t
  dhcpStopped : Bool
  getDnsRes : List esp_err_t
  dnsInfos : List Nat
  getApRes : esp_err_t
  apCfg : ApCfg
deriving DecidableEq, Repr

/-- The DNS read loop of get_wifi_cfg: each tcpip_adapter_get_dns_info may
fail, aborting the function; entries already read keep their values,
entries not yet reached keep the memset zeros. -/
def read_dns_go (env : RadioEnv) (idx : Nat) : List Nat → esp_err_t × List Nat
  | [] => (ESP_OK, [])
  | z :: zs =>
    if env.getDnsRes.getD idx ESP_OK ≠ ESP_OK then
      (env.getDnsRes.getD idx ESP_OK, z :: zs)
    else
      let t := read_dns_go env (idx + 1) zs
      (t.1, env.dnsInfos.getD idx 0 :: t.2)

/-- wifi_manager.c get_wifi_cfg: snapshot the live radio configuration into
a wifi_cfg.  On any failure the partially filled struct (memset zeros plus
the fields read so far) is what the out parameter holds. -/
def get_wifi_cfg (connected : Bool) (env : RadioEnv) : esp_err_t × WifiCfg :=
  let cfg0 := { zeroWifiCfg with sta_connect := connected }
  if env.getModeRes ≠ ESP_OK then (env.getModeRes, cfg0)
  else
    let cfg1 := { cfg0 with mode := env.mode }
    if env.getStaRes ≠ ESP_OK then (env.getStaRes, cfg1)
    else
      let cfg2 := { cfg1 with sta := env.staCfg }
      if env.dhcpRes ≠ ESP_OK then (env.dhcpRes, cfg2)
      else
        if env.dhcpStopped then
          let cfg3 := { cfg2 with sta_static := true }
          let t := read_dns_go env 0 cfg3.sta_dns_info
          let cfg4 := { cfg3 with sta_dns_info := t.2 }
          if t.1 ≠ ESP_OK then (t.1, cfg4)
          else if env.getApRes ≠ ESP_OK then (env.getApRes, cfg4)
          else (ESP_OK, { cfg4 with ap := env.apCfg })
        else
          if env.getApRes ≠ ESP_OK then (env.getApRes, cfg2)
          else (ESP_OK, { cfg2 with ap := env.apCfg })

/-! Persistence adapter.  The namespace esp_wmngr holds at most the eight
records written by save_config; a record is either a u32 or a blob whose
stored length travels with the payload (get_saved_config compares it to
the expected struct size).  nvs_erase_all empties the namespace; erasure
itself is taken to be reliable, while nvs_open and each nvs_set_* may
fail according to the fault record. -/

structure NvsStore where
  mode : Option Nat
  sta_static : Option Nat
  sta_connect : Option Nat
  ap : Option (Nat × ApCfg)
  sta : Option (Nat × Nat)
  ap_ip : Option (Nat × Nat)
  sta_ip : Option (Nat × Nat)
  sta_dns : Option (Nat × List Nat)
deriving DecidableEq, Repr

def emptyStore : NvsStore := ⟨none, none, none, none, none, none, none, none⟩

structure NvsFaults where
  fOpen : Bool
  fMode : Bool
  fStaStatic : Bool
  fStaConnect : Bool
  fAp : Bool
  fSta : Bool
  fApIp : Bool
  fStaIp : Bool
  fStaDns : Bool
deriving DecidableEq, Repr

def noFaults : NvsFaults := ⟨false, false, false, false, false, false, false, false, false⟩

/-! Expected blob sizes (sizeof the esp-idf structs); the concrete numbers
are arbitrary but fixed, matching that save_config writes sizeof(x) and
get_saved_config compares the stored length against the same sizeof. -/

def SZ_AP : Nat := 132

def SZ_STA : Nat := 132

def SZ_AP_IP : Nat := 12

def SZ_STA_IP : Nat := 12

def SZ_STA_DNS : Nat := 24

def boolToU32 (b : Bool) : Nat := cond b 1 0

/-- The namespace contents after every field of cfg has been written. -/
def writeAll (cfg : WifiCfg) : NvsStore :=
  ⟨some cfg.mode, some (boolToU32 cfg.sta_static), some (boolToU32 cfg.sta_connect),
    some (SZ_AP, cfg.ap), some (SZ_STA, cfg.sta), some (SZ_AP_IP, cfg.ap_ip_info),
    some (SZ_STA_IP, cfg.sta_ip_info), some (SZ_STA_DNS, cfg.sta_dns_info)⟩

/-- wifi_manager.c save_config: open read-write, erase the namespace,
commit, stop if the config is the factory default, otherwise write each
field in order; the on_exit path erases the namespace again whenever the
running result is not ESP_OK. -/
def save_config (f : NvsFaults) (nvs : NvsStore) (cfg : WifiCfg) : esp_err_t × NvsStore :=
  if f.fOpen then (ESP_ERR_NVS_OP_FAILED, nvs)
  else
    let s0 := emptyStore
    if cfg.is_default then (ESP_OK, s0)
    else if f.fMode then (ESP_ERR_NVS_OP_FAILED, emptyStore)
    else
      let s1 := { s0 with mode := some cfg.mode }
      if f.fStaStatic then (ESP_ERR_NVS_OP_FAILED, emptyStore)
      else
        let s2 := { s1 with sta_static := some (boolToU32 cfg.sta_static) }
        if f.fStaConnect then (ESP_ERR_NVS_OP_FAILED, emptyStore)
        else
          let s3 := { s2 with sta_connect := some (boolToU32 cfg.sta_connect) }
          if f.fAp then (ESP_ERR_NVS_OP_FAILED, emptyStore)
          else
            let s4 := { s3 with ap := some (SZ_AP, cfg.ap) }
            if f.fSta then (ESP_ERR_NVS_OP_FAILED, emptyStore)
            else
              let s5 := { s4 with sta := some (SZ_STA, cfg.sta) }
              if f.fApIp then (ESP_ERR_NVS_OP_FAILED, emptyStore)
              else
                let s6 := { s5 with ap_ip := some (SZ_AP_IP, cfg.ap_ip_info) }
                if f.fStaIp then (ESP_ERR_NVS_OP_FAILED, emptyStore)
                else
                  let s7 := { s6 with sta_ip := some (SZ_STA_IP, cfg.sta_ip_info) }
                  if f.fStaDns then (ESP_ERR_NVS_OP_FAILED, emptyStore)
                  else
                    (ESP_OK, { s7 with sta_dns := some (SZ_STA_DNS, cfg.sta_dns_info) })

/-- wifi_manager.c get_saved_config: open read-only, read every field; a
missing record or a blob whose stored length differs from the expected
struct size aborts with an error.  openOk is false when nvs_open itself
fails (for instance, the namespace was never created). -/
def get_saved_config (openOk : Bool) (nvs : NvsStore) : esp_err_t × WifiCfg :=
  let cfg0 := zeroWifiCfg
  if openOk = false then (ESP_ERR_NVS_NOT_FOUND, cfg0)
  else
    match nvs.mode with
    | none => (ESP_ERR_NVS_NOT_FOUND, cfg0)
    | some m =>
      let cfg1 := { cfg0 with mode := m }
      match nvs.sta_static with
      | none => (ESP_ERR_NVS_NOT_FOUND, cfg1)
      | some v =>
        let cfg2 := { cfg1 with sta_static := decide (v ≠ 0) }
        match nvs.sta_connect with
        | none => (ESP_ERR_NVS_NOT_FOUND, cfg2)
        | some w =>
          let cfg3 := { cfg2 with sta_connect := decide (w ≠ 0) }
          match nvs.ap with
          | none => (ESP_ERR_NVS_NOT_FOUND, cfg3)
          | some p =>
            let cfg4 := { cfg3 with ap := p.2 }
            if p.1 ≠ SZ_AP then (ESP_ERR_NOT_FOUND, cfg4)
            else
              match nvs.sta with
              | none => (ESP_ERR_NVS_NOT_FOUND, cfg4)
              | some q =>
                let cfg5 := { cfg4 with sta := q.2 }
                if q.1 ≠ SZ_STA then (ESP_ERR_NOT_FOUND, cfg5)
                else
                  match nvs.ap_ip with
                  | none => (ESP_ERR_NVS_NOT_FOUND, cfg5)
                  | some r =>
                    let cfg6 := { cfg5 with ap_ip_info := r.2 }
                    if r.1 ≠ SZ_AP_IP then (ESP_ERR_NOT_FOUND, cfg6)
                    else
                      match nvs.sta_ip with
                      | none => (ESP_ERR_NVS_NOT_FOUND, cfg6)
                      | some u =>
                        let cfg7 := { cfg6 with sta_ip_info := u.2 }
                        if u.1 ≠ SZ_STA_IP then (ESP_ERR_NOT_FOUND, cfg7)
                        else
                          match nvs.sta_dns with
                          | none => (ESP_ERR_NVS_NOT_FOUND, cfg7)
                          | some w2 =>
                            let cfg8 := { cfg7 with sta_dns_info := w2.2 }
                            if w2.1 ≠ SZ_STA_DNS then (ESP_ERR_NOT_FOUND, cfg8)
                            else (ESP_OK, cfg8)

/-! Scan pipeline environments. -/

structure ScanStartEnv where
  getModeRes : esp_err_t
  mode : Nat
  scanStartRes : esp_err_t
deriving DecidableEq, Repr

/-- wifi_manager.c wifi_scan_start.  Called only from the state-machine
step.  Returns the updated event bits and the driver calls issued.
Faithful detail: the SCAN_START bit is cleared on entry once the state is
stable, but is set again immediately before esp_wifi_scan_start when a
scan request is actually issued (the bit is then cleared later by the
SCAN_DONE event handler). -/
def wifi_scan_start (env : ScanStartEnv) (st : Nat) (ev : EventBits) : EventBits × List WAct :=
  if wmngr_state_idle < st then (ev, [])
  else
    let ev1 := { ev with scan_start := false }
    if env.getModeRes ≠ ESP_OK then (ev1, [])
    else if env.mode ≠ WIFI_MODE_APSTA ∧ env.mode ≠ WIFI_MODE_STA then (ev1, [])
    else if ev1.scan_running = false ∧ ev1.scan_done = false then
      let ev2 := { ev1 with scan_start := true }
      if env.scanStartRes = ESP_OK then
        ({ ev2 with scan_running := true }, [WAct.scanReq true WIFI_SCAN_TYPE_ACTIVE])
      else (ev2, [WAct.scanReq true WIFI_SCAN_TYPE_ACTIVE])
    else (ev1, [])

structure ScanDoneEnv where
  apNumRes : esp_err_t
  numAps : Nat
  allocOk : Bool
  allocRecOk : Bool
  getRecordsRes : esp_err_t
deriving DecidableEq, Repr

/-- wifi_manager.c wifi_scan_done, restricted to its effect on the event
bits: SCAN_RUNNING and SCAN_DONE are cleared when the record count was
fetched (zero count or count error included) unless an allocation failed
first; the snapshot bookkeeping itself is modelled by the kref lifecycle
below. -/
def wifi_scan_done (env : ScanDoneEnv) (ev : EventBits) : EventBits :=
  if env.apNumRes ≠ ESP_OK ∨ env.numAps = 0 then
    { ev with scan_running := false, scan_done := false }
  else if env.allocOk = false then ev
  else if env.allocRecOk = false then ev
  else { ev with scan_running := false, scan_done := false }

/-! The configuration state record (struct wifi_cfg_state, minus the lock
handle and the scan pointer, which are modelled separately). -/

structure CfgState where
  state : Nat
  cfg_timestamp : Nat
  saved : WifiCfg
  current : WifiCfg
  new : WifiCfg
deriving DecidableEq, Repr

/-! One state-machine step (handle_wifi).  The environment collects the
results every external call made during the step would return, plus
whether the try-lock on cfg_state.lock and the timer re-arm succeed. -/

structure StepEnv where
  lockOk : Bool
  timerOk : Bool
  getModeRes : esp_err_t
  radioMode : Nat
  drv : DriverResults
  wpsEnableRes : esp_err_t
  wpsStartRes : esp_err_t
  wpsDisableRes : esp_err_t
  radio : RadioEnv
  faults : NvsFaults
  scanStartEnv : ScanStartEnv
  scanDoneEnv : ScanDoneEnv
deriving Repr

structure StepResult where
  cs : CfgState
  ev : EventBits
  nvs : NvsStore
  delay : Nat
  trace : List WAct
deriving Repr

/-- Intermediate result of the switch(cfg_state.state) dispatch; gexit
records whether the branch left via goto on_exit (skipping the scan
servicing tail) rather than by break. -/
structure BranchOut where
  cs : CfgState
  ev : EventBits
  nvs : NvsStore
  delay : Nat
  trace : List WAct
  gexit : Bool
deriving Repr

/-- The switch(cfg_state.state) body of handle_wifi, one case at a time in
source order. -/
def wmngr_branch (env : StepEnv) (cs : CfgState) (ev : EventBits) (now : Nat)
    (nvs : NvsStore) (connected : Bool) : BranchOut :=
  if cs.state = wmngr_state_wps_start then
    let g := get_wifi_cfg connected env.radio
    let cs1 := { cs with new := g.2 }
    if g.1 ≠ ESP_OK then
      ⟨{ cs1 with state := wmngr_state_fallback }, ev, nvs, CFG_DELAY,
        [WAct.stateWrite wmngr_state_fallback], true⟩
    else
      let n1 := { cs1.new with sta := 0, mode := WIFI_MODE_APSTA, sta_connect := false }
      let a := set_wifi_cfg env.drv n1
      let cs2 := { cs1 with new := a.cfg, current := a.current }
      if a.res ≠ ESP_OK then
        ⟨{ cs2 with state := wmngr_state_fallback }, ev, nvs, CFG_DELAY,
          a.acts ++ [WAct.stateWrite wmngr_state_fallback], true⟩
      else
        let ev1 := { ev with wps_success := false, wps_failed := false }
        if env.wpsEnableRes ≠ ESP_OK then
          ⟨{ cs2 with state := wmngr_state_fallback }, ev1, nvs, CFG_DELAY,
            a.acts ++ [WAct.wpsEnable, WAct.stateWrite wmngr_state_fallback], true⟩
        else if env.wpsStartRes ≠ ESP_OK then
          ⟨{ cs2 with state := wmngr_state_fallback }, ev1, nvs, CFG_DELAY,
            a.acts ++ [WAct.wpsEnable, WAct.wpsStartAct,
              WAct.stateWrite wmngr_state_fallback], true⟩
        else
          ⟨{ cs2 with cfg_timestamp := now, state := wmngr_state_wps_active }, ev1, nvs,
            CFG_TICKS,
            a.acts ++ [WAct.wpsEnable, WAct.wpsStartAct,
              WAct.stateWrite wmngr_state_wps_active], false⟩
  else if cs.state = wmngr_state_wps_active then
    if ev.wps_success then
      let g := get_wifi_cfg connected env.radio
      let n1 := { g.2 with mode := WIFI_MODE_APSTA, sta_connect := true }
      ⟨{ cs with new := n1, state := wmngr_state_update }, ev, nvs, CFG_DELAY,
        [WAct.wpsDisable, WAct.stateWrite wmngr_state_update], false⟩
    else if time_after now (cs.cfg_timestamp + CFG_TIMEOUT) ∨ ev.wps_failed then
      ⟨{ cs with state := wmngr_state_fallback }, ev, nvs, CFG_DELAY,
        [WAct.wpsDisable, WAct.stateWrite wmngr_state_fallback], false⟩
    else ⟨cs, ev, nvs, CFG_TICKS, [], false⟩
  else if cs.state = wmngr_state_update then
    let a := set_wifi_cfg env.drv cs.new
    let cs1 := { cs with current := a.current, new := a.cfg }
    let acts0 := [WAct.scanStop, WAct.disconnect] ++ a.acts
    if a.res ≠ ESP_OK then
      ⟨{ cs1 with state := wmngr_state_fallback }, ev, nvs, CFG_DELAY,
        acts0 ++ [WAct.stateWrite wmngr_state_fallback], true⟩
    else if cs1.new.mode = WIFI_MODE_AP ∨ cs1.new.sta_connect = false then
      ⟨{ cs1 with state := wmngr_state_idle }, ev, nvs, 0,
        acts0 ++ [WAct.stateWrite wmngr_state_idle], false⟩
    else
      ⟨{ cs1 with cfg_timestamp := now, state := wmngr_state_connecting }, ev, nvs,
        CFG_TICKS, acts0 ++ [WAct.stateWrite wmngr_state_connecting], false⟩
  else if cs.state = wmngr_state_connecting then
    if connected then
      let sv := save_config env.faults nvs cs.new
      ⟨{ cs with state := wmngr_state_connected }, ev, sv.2, 0,
        [WAct.stateWrite wmngr_state_connected, WAct.persist cs.new], false⟩
    else if time_after now (cs.cfg_timestamp + CFG_TIMEOUT) then
      ⟨{ cs with state := wmngr_state_fallback }, ev, nvs, CFG_DELAY,
        [WAct.stateWrite wmngr_state_fallback], false⟩
    else ⟨cs, ev, nvs, CFG_TICKS, [], false⟩
  else if cs.state = wmngr_state_disconnecting then
    ⟨cs, ev, nvs, 0, [], false⟩
  else if cs.state = wmngr_state_fallback then
    let a := set_wifi_cfg env.drv cs.saved
    ⟨{ cs with current := a.current, saved := a.cfg, state := wmngr_state_failed }, ev, nvs,
      0, [WAct.disconnect] ++ a.acts ++ [WAct.stateWrite wmngr_state_failed], false⟩
  else if cs.state = wmngr_state_connected then
    if connected = false then
      ⟨{ cs with state := wmngr_state_update }, ev, nvs, CFG_DELAY,
        [WAct.stateWrite wmngr_state_update], false⟩
    else ⟨cs, ev, nvs, 0, [], false⟩
  else if cs.state = wmngr_state_idle ∨ cs.state = wmngr_state_failed then
    ⟨cs, ev, nvs, 0, [], false⟩
  else
    ⟨{ cs with state := wmngr_state_failed }, ev, nvs, 0,
      [WAct.stateWrite wmngr_state_failed], false⟩

/-- The scan servicing tail of handle_wifi, reached when the branch fell
out of the switch by break and the state is stable.  The dispatch reads
the event snapshot taken at the top of the step (the stale local
events variable of the source), while the serviced functions operate on
the live event group. -/
def scan_tail (env : StepEnv) (ev0 : EventBits) (b : BranchOut) : StepResult :=
  if b.gexit = false ∧ b.cs.state ≤ wmngr_state_idle then
    let p :=
      if ev0.scan_start then wifi_scan_start env.scanStartEnv b.cs.state b.ev
      else if ev0.scan_done then (wifi_scan_done env.scanDoneEnv b.ev, [])
      else (b.ev, [])
    let d1 := if p.1.scan_start ∨ p.1.scan_done then CFG_DELAY else b.delay
    ⟨b.cs, p.1, b.nvs, d1, b.trace ++ p.2⟩
  else ⟨b.cs, b.ev, b.nvs, b.delay, b.trace⟩

/-- The on_exit tail of handle_wifi: when a re-arm is requested and
xTimerChangePeriod fails, the state is forced to failed. -/
def step_finish (timerOk : Bool) (r : StepResult) : StepResult :=
  if 0 < r.delay ∧ timerOk = false then
    { r with cs := { r.cs with state := wmngr_state_failed } }
  else r

/-- wifi_manager.c handle_wifi: one state-machine step.  On lock
contention it only re-arms a short wake-up; a failing esp_wifi_get_mode
forces the failed state and skips the dispatch; otherwise the switch runs
followed by the scan tail and the on_exit re-arm. -/
def handle_wifi (env : StepEnv) (cs : CfgState) (ev : EventBits) (now : Nat)
    (nvs : NvsStore) : StepResult :=
  if env.lockOk = false then ⟨cs, ev, nvs, CFG_DELAY, []⟩
  else if env.getModeRes ≠ ESP_OK then
    step_finish env.timerOk
      ⟨{ cs with state := wmngr_state_failed }, ev, nvs, 0,
        [WAct.stateWrite wmngr_state_failed]⟩
  else
    step_finish env.timerOk (scan_tail env ev (wmngr_branch env cs ev now nvs ev.sta_connected))

/-! Public API surface. -/

/-- esp_wmngr_get_state: reads cfg_state.state with no lock taken. -/
def esp_wmngr_get_state (cs : CfgState) : Nat := cs.state

/-- esp_wmngr_get_cfg: bounded-wait lock, busy check, then copy of
cfg_state.current into the out parameter (out0 is the buffer content as
passed by the caller). -/
def esp_wmngr_get_cfg (lockOk : Bool) (cs : CfgState) (out0 : WifiCfg) : esp_err_t × WifiCfg :=
  if lockOk = false then (ESP_ERR_TIMEOUT, out0)
  else if wmngr_state_idle < cs.state then (ESP_ERR_INVALID_STATE, out0)
  else (ESP_OK, cs.current)

/-- esp_wmngr_set_cfg.  Returns the result, the new cfg_state and whether
the wake-up timer was armed.  connected is the BIT_STA_CONNECTED flag,
env answers the get_wifi_cfg snapshot, timerOk whether
xTimerChangePeriod succeeds. -/
def esp_wmngr_set_cfg (lockOk timerOk connected : Bool) (env : RadioEnv) (cs : CfgState)
    (newArg : WifiCfg) : esp_err_t × CfgState × Bool :=
  if lockOk = false then (ESP_ERR_TIMEOUT, cs, false)
  else if wmngr_state_idle < cs.state then (ESP_ERR_INVALID_STATE, cs, false)
  else
    let g := get_wifi_cfg connected env
    let cs1 := { cs with saved := g.2 }
    if g.1 ≠ ESP_OK then (g.1, cs1, false)
    else
      let cs2 :=
        if connected = false then { cs1 with saved := { cs1.saved with sta := 0 } } else cs1
      let n := { newArg with is_default := false }
      let cs3 := { cs2 with new := n }
      let upd1 : Bool := decide (n.mode ≠ cs3.saved.mode)
      let upd2 : Bool :=
        decide ((newArg.mode = WIFI_MODE_AP ∨ newArg.mode = WIFI_MODE_APSTA) ∧
          n.ap ≠ cs3.saved.ap)
      let upd3 : Bool :=
        decide ((newArg.mode = WIFI_MODE_STA ∨ newArg.mode = WIFI_MODE_APSTA) ∧
          n.sta ≠ cs3.saved.sta)
      if upd1 ∨ upd2 ∨ upd3 then
        if timerOk then (ESP_OK, { cs3 with state := wmngr_state_update }, true)
        else (ESP_ERR_TIMEOUT, { cs3 with state := wmngr_state_failed }, false)
      else (ESP_OK, cs3, false)

/-- esp_wmngr_start_wps.  The current config is snapshotted into a local
and only committed to cfg_state.saved on success; a failing timer re-arm
sets the failed state but the function still returns ESP_OK (the source
does not update result there). -/
def esp_wmngr_start_wps (lockOk timerOk connected : Bool) (env : RadioEnv)
    (cs : CfgState) : esp_err_t × CfgState × Bool :=
  if lockOk = false then (ESP_ERR_TIMEOUT, cs, false)
  else if wmngr_state_idle < cs.state then (ESP_ERR_INVALID_STATE, cs, false)
  else
    let g := get_wifi_cfg connected env
    if g.1 ≠ ESP_OK then (g.1, cs, false)
    else
      let cs1 := { cs with saved := g.2, state := wmngr_state_wps_start }
      if timerOk then (ESP_OK, cs1, true)
      else (ESP_OK, { cs1 with state := wmngr_state_failed }, false)

/-- wifi_manager.c set_connect: fetch the current config through
esp_wmngr_get_cfg (which performs its own lock and busy check), require a
STA-bearing mode, override sta_connect and push the result back through
esp_wmngr_set_cfg.  The local cfg variable is uninitialised in the
source; zeroWifiCfg stands for its initial (junk) contents, which are
never read on the failure paths. -/
def set_connect (lockOk timerOk connectedFlag : Bool) (env : RadioEnv) (cs : CfgState)
    (b : Bool) : esp_err_t × CfgState × Bool :=
  let g := esp_wmngr_get_cfg lockOk cs zeroWifiCfg
  if g.1 ≠ ESP_OK then (g.1, cs, false)
  else if g.2.mode ≠ WIFI_MODE_APSTA ∧ g.2.mode ≠ WIFI_MODE_STA then
    (ESP_ERR_INVALID_STATE, cs, false)
  else esp_wmngr_set_cfg lockOk timerOk connectedFlag env cs { g.2 with sta_connect := b }

def esp_wmngr_connect (lockOk timerOk connectedFlag : Bool) (env : RadioEnv)
    (cs : CfgState) : esp_err_t × CfgState × Bool :=
  set_connect lockOk timerOk connectedFlag env cs true

def esp_wmngr_disconnect (lockOk timerOk connectedFlag : Bool) (env : RadioEnv)
    (cs : CfgState) : esp_err_t × CfgState × Bool :=
  set_connect lockOk timerOk connectedFlag env cs false

/-! Scan snapshot lifecycle (kref.h plus the users in wifi_manager.c),
followed for one published snapshot.  kref_init leaves the count at 1;
wifi_scan_done takes a second reference before publishing the snapshot in
cfg_state.scan_ref and drops its local one on exit, so a freshly
published snapshot has count 1 and is held by scan_ref.  readerGet is
esp_wmngr_get_scan (kref_get under the lock, legal only while the
snapshot is the current scan_ref); replaceSnap is the esp_wmngr_put_scan
performed by wifi_scan_done on the old snapshot when a newer one replaces
it; readerPut is esp_wmngr_put_scan by a reader holding a borrow.
kref_put frees the snapshot exactly when the count it decrements was 1. -/

structure SnapLife where
  isCurrent : Bool
  readers : Nat
  count : Nat
  freed : Bool
deriving DecidableEq, Repr

inductive SnapEv where
  | readerGet
  | replaceSnap
  | readerPut
deriving DecidableEq, Repr

def snap_valid (s : SnapLife) : SnapEv → Bool
  | SnapEv.readerGet => s.isCurrent && !s.freed
  | SnapEv.replaceSnap => s.isCurrent && !s.freed
  | SnapEv.readerPut => decide (1 ≤ s.readers) && !s.freed

/-- kref_put on the snapshot counter: decrement, release at zero. -/
def kref_put_count (s : SnapLife) : SnapLife :=
  if s.count = 1 then { s with count := 0, freed := true }
  else { s with count := s.count - 1 }

def snap_step (s : SnapLife) : SnapEv → SnapLife
  | SnapEv.readerGet => { s with count := s.count + 1, readers := s.readers + 1 }
  | SnapEv.replaceSnap => kref_put_count { s with isCurrent := false }
  | SnapEv.readerPut => kref_put_count { s with readers := s.readers - 1 }

def snap_run (s : SnapLife) : List SnapEv → Option SnapLife
  | [] => some s
  | e :: es => if snap_valid s e then snap_run (snap_step s e) es else none

/-- A freshly published snapshot: count 1, held by scan_ref, no reader
borrows outstanding. -/
def snap_published : SnapLife := ⟨true, 0, 1, false⟩

/-! Persistence lemmas. -/

lemma save_config_ok_store (f : NvsFaults) (nvs : NvsStore) (X : WifiCfg)
    (hd : X.is_default = false) (hok : (save_config f nvs X).1 = ESP_OK) :
    (save_config f nvs X).2 = writeAll X := by
  have hne : ESP_ERR_NVS_OP_FAILED ≠ ESP_OK := by decide
  unfold save_config at hok ⊢
  by_cases h1 : f.fOpen = true
  · rw [if_pos h1] at hok; exact absurd hok hne
  rw [if_neg h1] at hok ⊢
  simp only [hd, Bool.false_eq_true, if_false] at hok ⊢
  by_cases h2 : f.fMode = true
  · rw [if_pos h2] at hok; exact absurd hok hne
  rw [if_neg h2] at hok ⊢
  by_cases h3 : f.fStaStatic = true
  · rw [if_pos h3] at hok; exact absurd hok hne
  rw [if_neg h3] at hok ⊢
  by_cases h4 : f.fStaConnect = true
  · rw [if_pos h4] at hok; exact absurd hok hne
  rw [if_neg h4] at hok ⊢
  by_cases h5 : f.fAp = true
  · rw [if_pos h5] at hok; exact absurd hok hne
  rw [if_neg h5] at hok ⊢
  by_cases h6 : f.fSta = true
  · rw [if_pos h6] at hok; exact absurd hok hne
  rw [if_neg h6] at hok ⊢
  by_cases h7 : f.fApIp = true
  · rw [if_pos h7] at hok; exact absurd hok hne
  rw [if_neg h7] at hok ⊢
  by_cases h8 : f.fStaIp = true
  · rw [if_pos h8] at hok; exact absurd hok hne
  rw [if_neg h8] at hok ⊢
  by_cases h9 : f.fStaDns = true
  · rw [if_pos h9] at hok; exact absurd hok hne
  rw [if_neg h9]
  rfl

lemma get_saved_writeAll (X : WifiCfg) :
    get_saved_config true (writeAll X) = (ESP_OK, { X with is_default := false }) := by
  rcases X with ⟨d, m, a, ai, s, ss, si, sd, sc⟩
  cases ss <;> cases sc <;> rfl

/-- C3: for a configuration X with is_default = false, a successful
save_config(X) followed by get_saved_config yields X back in every field;
for X with is_default = true, save_config leaves the store empty and a
subsequent load reports not-found.  (Success of save_config is the stated
hypothesis of the round-trip; with is_default = true the only fallible
operation is the nvs_open, so success again means the open succeeded.) -/
theorem save_load_roundtrip (f : NvsFaults) (nvs : NvsStore) (X : WifiCfg) :
    (X.is_default = false → (save_config f nvs X).1 = ESP_OK →
      get_saved_config true (save_config f nvs X).2 = (ESP_OK, X)) ∧
    (X.is_default = true → (save_config f nvs X).1 = ESP_OK →
      (save_config f nvs X).2 = emptyStore ∧
      (get_saved_config true emptyStore).1 = ESP_ERR_NVS_NOT_FOUND) := by
  constructor
  · intro hd hok
    rw [save_config_ok_store f nvs X hd hok, get_saved_writeAll]
    have hX : ({ X with is_default := false } : WifiCfg) = X := by
      rcases X with ⟨d, m, a, ai, s, ss, si, sd, sc⟩
      simp only at hd
      rw [hd]
    rw [hX]
  · intro hd hok
    refine ⟨?_, rfl⟩
    have hne : ESP_ERR_NVS_OP_FAILED ≠ ESP_OK := by decide
    unfold save_config at hok ⊢
    by_cases h1 : f.fOpen = true
    · rw [if_pos h1] at hok; exact absurd hok hne
    · rw [if_neg h1] at hok ⊢
      rw [if_pos hd]

/-- Witness configuration: a concrete non-default config with every field
nonzero where possible. -/
def cfgW : WifiCfg := ⟨false, WIFI_MODE_STA, ⟨2, 7⟩, 4, 5, true, 9, [1, 0, 3], true⟩

/-- C3 witness: the round-trip evaluated on cfgW. -/
theorem save_load_roundtrip_witness :
    get_saved_config true (save_config noFaults emptyStore cfgW).2 = (ESP_OK, cfgW) :=
  (save_load_roundtrip noFaults emptyStore cfgW).1 rfl rfl

/-- C6: once the nvs_open succeeded, save_config leaves the namespace
holding either the complete record of cfg or nothing at all; in
particular any failing field write ends with the namespace erased
(suffix: every non-ESP_OK return leaves the store empty).  The quantifier
over the fault record f covers a failure of each individual field
write. -/
theorem save_config_never_partial (f : NvsFaults) (nvs : NvsStore) (X : WifiCfg)
    (ho : f.fOpen = false) :
    ((save_config f nvs X).2 = writeAll X ∨ (save_config f nvs X).2 = emptyStore) ∧
    ((save_config f nvs X).1 ≠ ESP_OK → (save_config f nvs X).2 = emptyStore) := by
  unfold save_config
  rw [if_neg (by simp [ho])]
  by_cases hd : X.is_default = true
  · rw [if_pos hd]; exact ⟨Or.inr rfl, fun _ => rfl⟩
  rw [if_neg hd]
  by_cases h2 : f.fMode = true
  · rw [if_pos h2]; exact ⟨Or.inr rfl, fun _ => rfl⟩
  rw [if_neg h2]
  by_cases h3 : f.fStaStatic = true
  · rw [if_pos h3]; exact ⟨Or.inr rfl, fun _ => rfl⟩
  rw [if_neg h3]
  by_cases h4 : f.fStaConnect = true
  · rw [if_pos h4]; exact ⟨Or.inr rfl, fun _ => rfl⟩
  rw [if_neg h4]
  by_cases h5 : f.fAp = true
  · rw [if_pos h5]; exact ⟨Or.inr rfl, fun _ => rfl⟩
  rw [if_neg h5]
  by_cases h6 : f.fSta = true
  · rw [if_pos h6]; exact ⟨Or.inr rfl, fun _ => rfl⟩
  rw [if_neg h6]
  by_cases h7 : f.fApIp = true
  · rw [if_pos h7]; exact ⟨Or.inr rfl, fun _ => rfl⟩
  rw [if_neg h7]
  by_cases h8 : f.fStaIp = true
  · rw [if_pos h8]; exact ⟨Or.inr rfl, fun _ => rfl⟩
  rw [if_neg h8]
  by_cases h9 : f.fStaDns = true
  · rw [if_pos h9]; exact ⟨Or.inr rfl, fun _ => rfl⟩
  rw [if_neg h9]
  exact ⟨Or.inl rfl, fun h => absurd rfl h⟩

/-- Fault record in which the write of the sta blob fails. -/
def faultsSta : NvsFaults := ⟨false, false, false, false, false, true, false, false, false⟩

/-- A non-empty previous store (a full record of the zero config). -/
def nvsPrev : NvsStore := writeAll zeroWifiCfg

/-- C6 witness: with a failing sta-blob write over a non-empty previous
store, the store ends up empty. -/
theorem save_config_never_partial_witness :
    ((save_config faultsSta nvsPrev cfgW).2 = writeAll cfgW ∨
      (save_config faultsSta nvsPrev cfgW).2 = emptyStore) ∧
    ((save_config faultsSta nvsPrev cfgW).1 ≠ ESP_OK →
      (save_config faultsSta nvsPrev cfgW).2 = emptyStore) :=
  save_config_never_partial faultsSta nvsPrev cfgW rfl

/-- C9: esp_wmngr_get_cfg while the state is transitional returns
ESP_ERR_INVALID_STATE with the output buffer untouched; it copies
cfg_state.current and returns ESP_OK exactly when the lock was obtained
within the bounded wait and the state is stable; a lock timeout returns
ESP_ERR_TIMEOUT, again leaving the buffer untouched. -/
theorem get_cfg_busy_or_copy (cs : CfgState) (out0 : WifiCfg) :
    (wmngr_state_idle < cs.state →
      esp_wmngr_get_cfg true cs out0 = (ESP_ERR_INVALID_STATE, out0)) ∧
    (cs.state ≤ wmngr_state_idle →
      esp_wmngr_get_cfg true cs out0 = (ESP_OK, cs.current)) ∧
    esp_wmngr_get_cfg false cs out0 = (ESP_ERR_TIMEOUT, out0) := by
  refine ⟨fun h => ?_, fun h => ?_, rfl⟩
  · unfold esp_wmngr_get_cfg
    rw [if_neg (by simp), if_pos h]
  · unfold esp_wmngr_get_cfg
    rw [if_neg (by simp), if_neg (by omega)]

/-- A cfg_state caught in the transitional connecting state. -/
def csBusy : CfgState := ⟨wmngr_state_connecting, 17, cfgW, cfgW, cfgW⟩

/-- C9 witness: get_cfg on the connecting state. -/
theorem get_cfg_busy_witness :
    esp_wmngr_get_cfg true csBusy zeroWifiCfg = (ESP_ERR_INVALID_STATE, zeroWifiCfg) :=
  (get_cfg_busy_or_copy csBusy zeroWifiCfg).1 (by decide)

/-- Concrete radio environment: STA mode, all calls succeeding. -/
def radioW : RadioEnv := ⟨ESP_OK, WIFI_MODE_STA, ESP_OK, 5, ESP_OK, false, [], [], ESP_OK, ⟨0, 0⟩⟩

/-- C2: with the lock held and the state strictly greater than idle,
every configuration-changing public call (esp_wmngr_set_cfg,
esp_wmngr_start_wps, and connect / disconnect, which reach
esp_wmngr_set_cfg through set_connect) returns ESP_ERR_INVALID_STATE,
leaves cfg_state unchanged and arms no wake-up. -/
theorem busy_rejects_config_ops (cs : CfgState) (env : RadioEnv) (t c : Bool) (X : WifiCfg)
    (hs : wmngr_state_idle < cs.state) :
    esp_wmngr_set_cfg true t c env cs X = (ESP_ERR_INVALID_STATE, cs, false) ∧
    esp_wmngr_start_wps true t c env cs = (ESP_ERR_INVALID_STATE, cs, false) ∧
    esp_wmngr_connect true t c env cs = (ESP_ERR_INVALID_STATE, cs, false) ∧
    esp_wmngr_disconnect true t c env cs = (ESP_ERR_INVALID_STATE, cs, false) := by
  have hg : esp_wmngr_get_cfg true cs zeroWifiCfg = (ESP_ERR_INVALID_STATE, zeroWifiCfg) := by
    unfold esp_wmngr_get_cfg
    rw [if_neg (by simp), if_pos hs]
  refine ⟨?_, ?_, ?_, ?_⟩
  · unfold esp_wmngr_set_cfg
    rw [if_neg (by simp), if_pos hs]
  · unfold esp_wmngr_start_wps
    rw [if_neg (by simp), if_pos hs]
  · unfold esp_wmngr_connect set_connect
    rw [hg]
    simp [ESP_ERR_INVALID_STATE, ESP_OK]
  · unfold esp_wmngr_disconnect set_connect
    rw [hg]
    simp [ESP_ERR_INVALID_STATE, ESP_OK]

/-- C2 witness: all four rejections evaluated in the connecting state. -/
theorem busy_rejects_config_ops_witness :
    esp_wmngr_set_cfg true true false radioW csBusy cfgW = (ESP_ERR_INVALID_STATE, csBusy, false) ∧
    esp_wmngr_start_wps true true false radioW csBusy = (ESP_ERR_INVALID_STATE, csBusy, false) ∧
    esp_wmngr_connect true true false radioW csBusy = (ESP_ERR_INVALID_STATE, csBusy, false) ∧
    esp_wmngr_disconnect true true false radioW csBusy = (ESP_ERR_INVALID_STATE, csBusy, false) :=
  busy_rejects_config_ops csBusy radioW true false cfgW (by decide)

/-! Refcount invariant for the published scan snapshot. -/

lemma snap_step_inv (s : SnapLife) (e : SnapEv) (hv : snap_valid s e = true)
    (h1 : s.count = s.readers + cond s.isCurrent 1 0)
    (h2 : s.freed = true ↔ s.count = 0) :
    (snap_step s e).count = (snap_step s e).readers + cond (snap_step s e).isCurrent 1 0 ∧
    ((snap_step s e).freed = true ↔ (snap_step s e).count = 0) := by
  rcases s with ⟨cur, rd, cnt, fr⟩
  simp only at h1 h2
  cases e with
  | readerGet =>
    simp only [snap_valid, Bool.and_eq_true, Bool.not_eq_true'] at hv
    obtain ⟨hcur, hfr⟩ := hv
    subst hcur
    subst hfr
    simp only [snap_step, cond_true] at h1 ⊢
    constructor
    · omega
    · simp only [Bool.false_eq_true, false_iff]
      omega
  | replaceSnap =>
    simp only [snap_valid, Bool.and_eq_true, Bool.not_eq_true'] at hv
    obtain ⟨hcur, hfr⟩ := hv
    subst hcur
    subst hfr
    simp only [cond_true] at h1
    simp only [snap_step, kref_put_count]
    by_cases hc : cnt = 1
    · rw [if_pos hc]
      simp only [cond_false]
      exact ⟨by omega, by simp⟩
    · rw [if_neg hc]
      simp only [cond_false]
      exact ⟨by omega, by simp only [Bool.false_eq_true, false_iff]; omega⟩
  | readerPut =>
    simp only [snap_valid, Bool.and_eq_true, Bool.not_eq_true', decide_eq_true_eq] at hv
    obtain ⟨hrd, hfr⟩ := hv
    subst hfr
    simp only [snap_step, kref_put_count]
    by_cases hc : cnt = 1
    · rw [if_pos hc]
      cases cur
      · simp only [cond_false] at h1 ⊢
        exact ⟨by omega, by simp⟩
      · simp only [cond_true] at h1 ⊢
        exact ⟨by omega, by simp⟩
    · rw [if_neg hc]
      cases cur
      · simp only [cond_false] at h1 ⊢
        exact ⟨by omega, by simp only [Bool.false_eq_true, false_iff]; omega⟩
      · simp only [cond_true] at h1 ⊢
        exact ⟨by omega, by simp only [Bool.false_eq_true, false_iff]; omega⟩

lemma snap_run_inv : ∀ (tr : List SnapEv) (s s2 : SnapLife),
    s.count = s.readers + cond s.isCurrent 1 0 → (s.freed = true ↔ s.count = 0) →
    snap_run s tr = some s2 →
    s2.count = s2.readers + cond s2.isCurrent 1 0 ∧ (s2.freed = true ↔ s2.count = 0)
  | [], s, s2, h1, h2, hr => by
    simp only [snap_run, Option.some.injEq] at hr
    rw [← hr]
    exact ⟨h1, h2⟩
  | e :: es, s, s2, h1, h2, hr => by
    simp only [snap_run] at hr
    by_cases hv : snap_valid s e = true
    · rw [if_pos hv] at hr
      obtain ⟨g1, g2⟩ := snap_step_inv s e hv h1 h2
      exact snap_run_inv es (snap_step s e) s2 g1 g2 hr
    · rw [if_neg hv] at hr
      exact absurd hr (by simp)

/-- C8: along any legal event sequence starting from a freshly published
snapshot (reader borrows, replacement of scan_ref by a newer snapshot,
reader releases), a state in which some reader still holds a borrow is
never freed, and the snapshot is freed exactly when its reference count
reaches zero. -/
theorem scan_ref_not_freed_while_borrowed (tr : List SnapEv) (s : SnapLife)
    (h : snap_run snap_published tr = some s) :
    (1 ≤ s.readers → s.freed = false) ∧ (s.freed = true ↔ s.count = 0) := by
  obtain ⟨h1, h2⟩ :=
    snap_run_inv tr snap_published s (by simp [snap_published]) (by simp [snap_published]) h
  refine ⟨fun hr => ?_, h2⟩
  cases hsf : s.freed
  · rfl
  · exfalso
    have hc := h2.mp hsf
    rw [hc] at h1
    cases hcur : s.isCurrent <;> (rw [hcur] at h1; simp at h1; try omega)

/-- C8 witness: a reader takes a borrow, then a newer scan replaces the
snapshot; the state still holds the borrow and the snapshot is not
freed. -/
theorem scan_ref_not_freed_witness :
    (1 ≤ (⟨false, 1, 1, false⟩ : SnapLife).readers →
      (⟨false, 1, 1, false⟩ : SnapLife).freed = false) ∧
    ((⟨false, 1, 1, false⟩ : SnapLife).freed = true ↔
      (⟨false, 1, 1, false⟩ : SnapLife).count = 0) :=
  scan_ref_not_freed_while_borrowed [SnapEv.readerGet, SnapEv.replaceSnap]
    ⟨false, 1, 1, false⟩ rfl

/-! Helper lemmas about set_wifi_cfg and the step plumbing. -/

lemma set_wifi_cfg_current (d : DriverResults) (c : WifiCfg) :
    (set_wifi_cfg d c).current = c := by
  simp only [set_wifi_cfg]
  repeat' split
  all_goals rfl

lemma set_wifi_cfg_mode (d : DriverResults) (c : WifiCfg) :
    (set_wifi_cfg d c).cfg.mode = c.mode := by
  simp only [set_wifi_cfg]
  repeat' split
  all_goals rfl

lemma set_wifi_cfg_sta_connect (d : DriverResults) (c : WifiCfg) :
    (set_wifi_cfg d c).cfg.sta_connect = c.sta_connect := by
  simp only [set_wifi_cfg]
  repeat' split
  all_goals rfl

lemma set_wifi_cfg_mem_setMode (d : DriverResults) (c : WifiCfg) :
    WAct.setMode c.mode ∈ (set_wifi_cfg d c).acts := by
  simp only [set_wifi_cfg]
  repeat' split
  all_goals simp

lemma scan_tail_cs (env : StepEnv) (ev0 : EventBits) (b : BranchOut) :
    (scan_tail env ev0 b).cs = b.cs := by
  unfold scan_tail
  repeat' split
  all_goals rfl

lemma scan_tail_nvs (env : StepEnv) (ev0 : EventBits) (b : BranchOut) :
    (scan_tail env ev0 b).nvs = b.nvs := by
  unfold scan_tail
  repeat' split
  all_goals rfl

lemma scan_tail_trace (env : StepEnv) (ev0 : EventBits) (b : BranchOut) :
    ∃ t2, (scan_tail env ev0 b).trace = b.trace ++ t2 := by
  unfold scan_tail
  split
  · exact ⟨_, rfl⟩
  · exact ⟨[], (List.append_nil _).symm⟩

lemma scan_tail_of_transitional (env : StepEnv) (ev0 : EventBits) (b : BranchOut)
    (h : wmngr_state_idle < b.cs.state) :
    scan_tail env ev0 b = ⟨b.cs, b.ev, b.nvs, b.delay, b.trace⟩ := by
  unfold scan_tail
  rw [if_neg (by omega)]

lemma scan_tail_of_gexit (env : StepEnv) (ev0 : EventBits) (b : BranchOut)
    (h : b.gexit = true) :
    scan_tail env ev0 b = ⟨b.cs, b.ev, b.nvs, b.delay, b.trace⟩ := by
  unfold scan_tail
  rw [if_neg (by simp [h])]

lemma step_finish_timerOk (r : StepResult) : step_finish true r = r := by
  unfold step_finish
  rw [if_neg (by simp)]

lemma step_finish_cs_current (t : Bool) (r : StepResult) :
    (step_finish t r).cs.current = r.cs.current := by
  unfold step_finish
  split
  all_goals rfl

lemma step_finish_nvs (t : Bool) (r : StepResult) :
    (step_finish t r).nvs = r.nvs := by
  unfold step_finish
  split
  all_goals rfl

lemma step_finish_trace (t : Bool) (r : StepResult) :
    (step_finish t r).trace = r.trace := by
  unfold step_finish
  split
  all_goals rfl

lemma step_finish_state_failed (t : Bool) (r : StepResult)
    (h : r.cs.state = wmngr_state_failed) :
    (step_finish t r).cs.state = wmngr_state_failed := by
  unfold step_finish
  split
  · rfl
  · exact h

lemma handle_wifi_eq (env : StepEnv) (cs : CfgState) (ev : EventBits) (now : Nat)
    (nvs : NvsStore) (hl : env.lockOk = true) (hm : env.getModeRes = ESP_OK) :
    handle_wifi env cs ev now nvs =
      step_finish env.timerOk
        (scan_tail env ev (wmngr_branch env cs ev now nvs ev.sta_connected)) := by
  unfold handle_wifi
  rw [if_neg (by simp [hl]), if_neg (by simp [hm])]

lemma wmngr_branch_fallback (env : StepEnv) (cs : CfgState) (ev : EventBits) (now : Nat)
    (nvs : NvsStore) (conn : Bool) (hs : cs.state = wmngr_state_fallback) :
    wmngr_branch env cs ev now nvs conn =
      ⟨{ cs with
          current := (set_wifi_cfg env.drv cs.saved).current,
          saved := (set_wifi_cfg env.drv cs.saved).cfg,
          state := wmngr_state_failed }, ev, nvs,
        0, [WAct.disconnect] ++ (set_wifi_cfg env.drv cs.saved).acts ++
          [WAct.stateWrite wmngr_state_failed], false⟩ := by
  simp [wmngr_branch, hs, wmngr_state_fallback, wmngr_state_wps_start, wmngr_state_wps_active,
    wmngr_state_update, wmngr_state_connecting, wmngr_state_disconnecting]

/-- C1: a state-machine step taken in state fallback (lock obtained, mode
query succeeding) disconnects, applies the saved configuration to the
radio (cfg_state.current ends up equal to the entry value of
cfg_state.saved, and the driver receives the corresponding set-mode
call), and sets the state to failed.  The theorem quantifies over the
whole driver fault record env.drv, so any errors returned by the apply
are not escalated: the step still ends in failed with current = saved. -/
theorem fallback_step_applies_saved (env : StepEnv) (cs : CfgState) (ev : EventBits)
    (now : Nat) (nvs : NvsStore) (hs : cs.state = wmngr_state_fallback)
    (hl : env.lockOk = true) (hm : env.getModeRes = ESP_OK) :
    (handle_wifi env cs ev now nvs).cs.state = wmngr_state_failed ∧
    (handle_wifi env cs ev now nvs).cs.current = cs.saved ∧
    WAct.disconnect ∈ (handle_wifi env cs ev now nvs).trace ∧
    WAct.setMode cs.saved.mode ∈ (handle_wifi env cs ev now nvs).trace := by
  rw [handle_wifi_eq env cs ev now nvs hl hm,
    wmngr_branch_fallback env cs ev now nvs ev.sta_connected hs]
  refine ⟨?_, ?_, ?_, ?_⟩
  · apply step_finish_state_failed
    rw [scan_tail_cs]
  · rw [step_finish_cs_current, scan_tail_cs]
    exact set_wifi_cfg_current env.drv cs.saved
  · rw [step_finish_trace]
    obtain ⟨t2, ht⟩ := scan_tail_trace env ev _
    rw [ht]
    apply List.mem_append_left
    simp
  · rw [step_finish_trace]
    obtain ⟨t2, ht⟩ := scan_tail_trace env ev _
    rw [ht]
    apply List.mem_append_left
    apply List.mem_append_left
    apply List.mem_append_right
    exact set_wifi_cfg_mem_setMode env.drv cs.saved

/-- Concrete step environment with every external call succeeding. -/
def envOkW : StepEnv :=
  ⟨true, true, ESP_OK, WIFI_MODE_APSTA, drvOk, ESP_OK, ESP_OK, ESP_OK, radioW, noFaults,
    ⟨ESP_OK, WIFI_MODE_STA, ESP_OK⟩, ⟨ESP_OK, 3, true, true, ESP_OK⟩⟩

/-- A cfg_state sitting in the fallback state with cfgW as the saved
config. -/
def csFallback : CfgState := ⟨wmngr_state_fallback, 11, cfgW, zeroWifiCfg, zeroWifiCfg⟩

/-- C1 witness: the fallback step evaluated in a concrete environment. -/
theorem fallback_step_applies_saved_witness :
    (handle_wifi envOkW csFallback noEvents 42 emptyStore).cs.state = wmngr_state_failed ∧
    (handle_wifi envOkW csFallback noEvents 42 emptyStore).cs.current = csFallback.saved ∧
    WAct.disconnect ∈ (handle_wifi envOkW csFallback noEvents 42 emptyStore).trace ∧
    WAct.setMode csFallback.saved.mode ∈
      (handle_wifi envOkW csFallback noEvents 42 emptyStore).trace :=
  fallback_step_applies_saved envOkW csFallback noEvents 42 emptyStore rfl rfl rfl

lemma wmngr_branch_update (env : StepEnv) (cs : CfgState) (ev : EventBits) (now : Nat)
    (nvs : NvsStore) (conn : Bool) (hs : cs.state = wmngr_state_update) :
    wmngr_branch env cs ev now nvs conn =
      (if (set_wifi_cfg env.drv cs.new).res ≠ ESP_OK then
        ⟨{ cs with
            current := (set_wifi_cfg env.drv cs.new).current,
            new := (set_wifi_cfg env.drv cs.new).cfg,
            state := wmngr_state_fallback }, ev, nvs, CFG_DELAY,
          [WAct.scanStop, WAct.disconnect] ++ (set_wifi_cfg env.drv cs.new).acts ++
            [WAct.stateWrite wmngr_state_fallback], true⟩
      else if (set_wifi_cfg env.drv cs.new).cfg.mode = WIFI_MODE_AP ∨
          (set_wifi_cfg env.drv cs.new).cfg.sta_connect = false then
        ⟨{ cs with
            current := (set_wifi_cfg env.drv cs.new).current,
            new := (set_wifi_cfg env.drv cs.new).cfg,
            state := wmngr_state_idle }, ev, nvs, 0,
          [WAct.scanStop, WAct.disconnect] ++ (set_wifi_cfg env.drv cs.new).acts ++
            [WAct.stateWrite wmngr_state_idle], false⟩
      else
        ⟨{ cs with
            cfg_timestamp := now,
            current := (set_wifi_cfg env.drv cs.new).current,
            new := (set_wifi_cfg env.drv cs.new).cfg,
            state := wmngr_state_connecting }, ev, nvs, CFG_TICKS,
          [WAct.scanStop, WAct.disconnect] ++ (set_wifi_cfg env.drv cs.new).acts ++
            [WAct.stateWrite wmngr_state_connecting], false⟩) := by
  simp only [wmngr_branch, hs]
  norm_num [wmngr_state_update, wmngr_state_wps_start, wmngr_state_wps_active]

/-- C5: a step taken in state update stops any scan, disconnects, and
applies cfg_state.new to the radio (current ends up equal to the entry
value of new).  If the apply fails the next state is fallback with a
CFG_DELAY re-arm; if it succeeds and the new mode is AP-only or
sta_connect is clear the next state is idle; otherwise cfg_timestamp is
set to the current tick, the next state is connecting and the wake-up is
re-armed with CFG_TICKS. -/
theorem update_step_spec (env : StepEnv) (cs : CfgState) (ev : EventBits) (now : Nat)
    (nvs : NvsStore) (hs : cs.state = wmngr_state_update) (hl : env.lockOk = true)
    (hm : env.getModeRes = ESP_OK) (ht : env.timerOk = true) :
    WAct.scanStop ∈ (handle_wifi env cs ev now nvs).trace ∧
    WAct.disconnect ∈ (handle_wifi env cs ev now nvs).trace ∧
    (handle_wifi env cs ev now nvs).cs.current = cs.new ∧
    ((set_wifi_cfg env.drv cs.new).res ≠ ESP_OK →
      (handle_wifi env cs ev now nvs).cs.state = wmngr_state_fallback ∧
      (handle_wifi env cs ev now nvs).delay = CFG_DELAY) ∧
    ((set_wifi_cfg env.drv cs.new).res = ESP_OK →
      (cs.new.mode = WIFI_MODE_AP ∨ cs.new.sta_connect = false →
        (handle_wifi env cs ev now nvs).cs.state = wmngr_state_idle) ∧
      (cs.new.mode ≠ WIFI_MODE_AP → cs.new.sta_connect = true →
        (handle_wifi env cs ev now nvs).cs.state = wmngr_state_connecting ∧
        (handle_wifi env cs ev now nvs).cs.cfg_timestamp = now ∧
        (handle_wifi env cs ev now nvs).delay = CFG_TICKS)) := by
  rw [handle_wifi_eq env cs ev now nvs hl hm, ht, step_finish_timerOk,
    wmngr_branch_update env cs ev now nvs ev.sta_connected hs]
  by_cases hres : (set_wifi_cfg env.drv cs.new).res = ESP_OK
  · rw [if_neg (by simp [hres])]
    rw [set_wifi_cfg_mode, set_wifi_cfg_sta_connect]
    by_cases hc : cs.new.mode = WIFI_MODE_AP ∨ cs.new.sta_connect = false
    · rw [if_pos hc]
      obtain ⟨t2, ht2⟩ := scan_tail_trace env ev
        ⟨{ cs with
            current := (set_wifi_cfg env.drv cs.new).current,
            new := (set_wifi_cfg env.drv cs.new).cfg,
            state := wmngr_state_idle }, ev, nvs, 0,
          [WAct.scanStop, WAct.disconnect] ++ (set_wifi_cfg env.drv cs.new).acts ++
            [WAct.stateWrite wmngr_state_idle], false⟩
      refine ⟨?_, ?_, ?_, fun hne => absurd hres hne, fun _ => ⟨fun _ => ?_, fun hmo hsc => ?_⟩⟩
      · rw [ht2]
        apply List.mem_append_left
        simp
      · rw [ht2]
        apply List.mem_append_left
        simp
      · rw [scan_tail_cs]
        exact set_wifi_cfg_current env.drv cs.new
      · rw [scan_tail_cs]
      · rcases hc with h | h
        · exact absurd h hmo
        · exact absurd hsc (by simp [h])
    · rw [if_neg hc]
      rw [scan_tail_of_transitional _ _ _
        (by show wmngr_state_idle < wmngr_state_connecting; decide)]
      refine ⟨by simp, by simp, set_wifi_cfg_current env.drv cs.new,
        fun hne => absurd hres hne, fun _ => ⟨fun h => absurd h hc, fun hmo hsc => ⟨rfl, rfl, rfl⟩⟩⟩
  · rw [if_pos hres]
    rw [scan_tail_of_gexit _ _ _ rfl]
    exact ⟨by simp, by simp, set_wifi_cfg_current env.drv cs.new,
      fun _ => ⟨rfl, rfl⟩, fun hok => absurd hok hres⟩

/-- A cfg_state in the update state about to apply cfgW. -/
def csUpdate : CfgState := ⟨wmngr_state_update, 5, zeroWifiCfg, zeroWifiCfg, cfgW⟩

/-- C5 witness: the update step evaluated with an all-succeeding driver
and a STA config with sta_connect set. -/
theorem update_step_spec_witness :
    WAct.scanStop ∈ (handle_wifi envOkW csUpdate noEvents 9 emptyStore).trace ∧
    WAct.disconnect ∈ (handle_wifi envOkW csUpdate noEvents 9 emptyStore).trace ∧
    (handle_wifi envOkW csUpdate noEvents 9 emptyStore).cs.current = csUpdate.new ∧
    ((set_wifi_cfg envOkW.drv csUpdate.new).res ≠ ESP_OK →
      (handle_wifi envOkW csUpdate noEvents 9 emptyStore).cs.state = wmngr_state_fallback ∧
      (handle_wifi envOkW csUpdate noEvents 9 emptyStore).delay = CFG_DELAY) ∧
    ((set_wifi_cfg envOkW.drv csUpdate.new).res = ESP_OK →
      (csUpdate.new.mode = WIFI_MODE_AP ∨ csUpdate.new.sta_connect = false →
        (handle_wifi envOkW csUpdate noEvents 9 emptyStore).cs.state = wmngr_state_idle) ∧
      (csUpdate.new.mode ≠ WIFI_MODE_AP → csUpdate.new.sta_connect = true →
        (handle_wifi envOkW csUpdate noEvents 9 emptyStore).cs.state = wmngr_state_connecting ∧
        (handle_wifi envOkW csUpdate noEvents 9 emptyStore).cs.cfg_timestamp = 9 ∧
        (handle_wifi envOkW csUpdate noEvents 9 emptyStore).delay = CFG_TICKS)) :=
  update_step_spec envOkW csUpdate noEvents 9 emptyStore rfl rfl rfl rfl

lemma wmngr_branch_connecting (env : StepEnv) (cs : CfgState) (ev : EventBits) (now : Nat)
    (nvs : NvsStore) (conn : Bool) (hs : cs.state = wmngr_state_connecting) :
    wmngr_branch env cs ev now nvs conn =
      (if conn then
        ⟨{ cs with state := wmngr_state_connected }, ev, (save_config env.faults nvs cs.new).2,
          0, [WAct.stateWrite wmngr_state_connected, WAct.persist cs.new], false⟩
      else if time_after now (cs.cfg_timestamp + CFG_TIMEOUT) then
        ⟨{ cs with state := wmngr_state_fallback }, ev, nvs, CFG_DELAY,
          [WAct.stateWrite wmngr_state_fallback], false⟩
      else ⟨cs, ev, nvs, CFG_TICKS, [], false⟩) := by
  simp only [wmngr_branch, hs]
  norm_num [wmngr_state_connecting, wmngr_state_wps_start, wmngr_state_wps_active,
    wmngr_state_update]

/-- A stable idle cfg_state holding only zero configs. -/
def csIdleZ : CfgState := ⟨wmngr_state_idle, 3, zeroWifiCfg, zeroWifiCfg, zeroWifiCfg⟩

/-- Step environment in which the NVS write of the sta blob fails. -/
def envFaultW : StepEnv :=
  ⟨true, true, ESP_OK, WIFI_MODE_APSTA, drvOk, ESP_OK, ESP_OK, ESP_OK, radioW, faultsSta,
    ⟨ESP_OK, WIFI_MODE_STA, ESP_OK⟩, ⟨ESP_OK, 3, true, true, ESP_OK⟩⟩

/-- Event bits with the station-connected flag set. -/
def evConn : EventBits := { noEvents with sta_connected := true }

/-- The cfg_state produced by a successful esp_wmngr_set_cfg(cfgW) from
idle. -/
def csAfterSet : CfgState := (esp_wmngr_set_cfg true true false radioW csIdleZ cfgW).2.1

/-- The cfg_state after the subsequent update step applied cfgW. -/
def csAfterUpdate : CfgState := (handle_wifi envFaultW csAfterSet noEvents 4 emptyStore).cs

/-- C4 counterexample: a complete execution in which esp_wmngr_set_cfg(cfgW)
returned ESP_OK, the update step moved to connecting, and the connecting
step observed the connected flag while the NVS write failed: afterwards
every (lockless) esp_wmngr_get_state reader observes connected, yet the
store is empty, so the persisted configuration does not equal cfgW when
connected is observable.  The trace of the connecting step also shows the
state write preceding the persistence attempt. -/
theorem connecting_persist_counterexample :
    (esp_wmngr_set_cfg true true false radioW csIdleZ cfgW).1 = ESP_OK ∧
    csAfterSet.state = wmngr_state_update ∧
    csAfterUpdate.state = wmngr_state_connecting ∧
    csAfterUpdate.new = cfgW ∧
    esp_wmngr_get_state (handle_wifi envFaultW csAfterUpdate evConn 5 emptyStore).cs =
      wmngr_state_connected ∧
    (handle_wifi envFaultW csAfterUpdate evConn 5 emptyStore).nvs = emptyStore ∧
    (handle_wifi envFaultW csAfterUpdate evConn 5 emptyStore).trace =
      [WAct.stateWrite wmngr_state_connected, WAct.persist cfgW] := by
  refine ⟨rfl, rfl, rfl, rfl, rfl, rfl, rfl⟩

/-- C4 amended: along the connecting-to-connected transition the step
first writes state = connected and only then persists cfg_state.new, in
the same locked step (the first two trace entries are the state write
followed by the persist); when the NVS writes succeed and the config is
not a default one, the store holds exactly that config after the step.
A reader of the lockless esp_wmngr_get_state may therefore observe
connected before persistence has completed, and a persistence failure
still leaves the state connected. -/
theorem connecting_step_persists_after_connected (env : StepEnv) (cs : CfgState)
    (ev : EventBits) (now : Nat) (nvs : NvsStore) (hs : cs.state = wmngr_state_connecting)
    (hl : env.lockOk = true) (hm : env.getModeRes = ESP_OK) (hc : ev.sta_connected = true)
    (ht : env.timerOk = true) :
    (handle_wifi env cs ev now nvs).cs.state = wmngr_state_connected ∧
    (handle_wifi env cs ev now nvs).trace.take 2 =
      [WAct.stateWrite wmngr_state_connected, WAct.persist cs.new] ∧
    (env.faults = noFaults → cs.new.is_default = false →
      (handle_wifi env cs ev now nvs).nvs = writeAll cs.new) := by
  rw [handle_wifi_eq env cs ev now nvs hl hm, ht, step_finish_timerOk,
    wmngr_branch_connecting env cs ev now nvs ev.sta_connected hs, hc]
  rw [if_pos rfl]
  obtain ⟨t2, ht2⟩ := scan_tail_trace env ev
    ⟨{ cs with state := wmngr_state_connected }, ev, (save_config env.faults nvs cs.new).2,
      0, [WAct.stateWrite wmngr_state_connected, WAct.persist cs.new], false⟩
  refine ⟨?_, ?_, ?_⟩
  · rw [scan_tail_cs]
  · rw [ht2]
    rfl
  · intro hf hd
    rw [scan_tail_nvs]
    show (save_config env.faults nvs cs.new).2 = writeAll cs.new
    rw [hf]
    exact save_config_ok_store noFaults nvs cs.new hd (by simp [save_config, noFaults, hd])

/-- A cfg_state waiting in connecting with cfgW as the pending config. -/
def csConnecting : CfgState := ⟨wmngr_state_connecting, 3, zeroWifiCfg, zeroWifiCfg, cfgW⟩

/-- C4 amended witness: the connecting step with the connected flag set
and no NVS faults. -/
theorem connecting_step_persists_witness :
    (handle_wifi envOkW csConnecting evConn 5 emptyStore).cs.state = wmngr_state_connected ∧
    (handle_wifi envOkW csConnecting evConn 5 emptyStore).trace.take 2 =
      [WAct.stateWrite wmngr_state_connected, WAct.persist csConnecting.new] ∧
    (envOkW.faults = noFaults → csConnecting.new.is_default = false →
      (handle_wifi envOkW csConnecting evConn 5 emptyStore).nvs = writeAll csConnecting.new) :=
  connecting_step_persists_after_connected envOkW csConnecting evConn 5 emptyStore rfl rfl
    rfl rfl rfl

/-- Scan-start environment: mode query succeeds, STA mode, scan request
accepted. -/
def scanEnvW : ScanStartEnv := ⟨ESP_OK, WIFI_MODE_STA, ESP_OK⟩

/-- C7 counterexample: invoked in the stable idle state with STA mode, no
scan running and none pending collection, wifi_scan_start issues the scan
request but returns with the scan_start flag SET: the source re-sets
BIT_SCAN_START immediately before esp_wifi_scan_start and never clears it
again before returning (the flag is cleared later by the scan-done event
handler), contradicting the claim that scan_start is left cleared when
start-scan returns. -/
theorem wifi_scan_start_flag_counterexample :
    (wifi_scan_start scanEnvW wmngr_state_idle noEvents).2 =
      [WAct.scanReq true WIFI_SCAN_TYPE_ACTIVE] ∧
    (wifi_scan_start scanEnvW wmngr_state_idle noEvents).1.scan_running = true ∧
    (wifi_scan_start scanEnvW wmngr_state_idle noEvents).1.scan_start = true := by
  refine ⟨rfl, rfl, rfl⟩

/-- C7 amended: in a stable state, wifi_scan_start issues no scan when the
mode query succeeds but the mode is neither STA nor APSTA (only clearing
scan_start), does nothing beyond clearing scan_start when a scan is
already running or complete-but-uncollected, and otherwise requests an
active scan including hidden networks and sets scan_running exactly when
the request is accepted; in that issuing branch the scan_start flag is
re-set (not cleared) when the function returns, scan_start being left
cleared only in the non-issuing branches. -/
theorem wifi_scan_start_spec (env : ScanStartEnv) (st : Nat) (ev : EventBits)
    (hs : st ≤ wmngr_state_idle) :
    (env.getModeRes = ESP_OK → env.mode ≠ WIFI_MODE_STA → env.mode ≠ WIFI_MODE_APSTA →
      wifi_scan_start env st ev = ({ ev with scan_start := false }, [])) ∧
    ((ev.scan_running = true ∨ ev.scan_done = true) →
      (wifi_scan_start env st ev).2 = [] ∧
      (wifi_scan_start env st ev).1 = { ev with scan_start := false }) ∧
    (env.getModeRes = ESP_OK → (env.mode = WIFI_MODE_STA ∨ env.mode = WIFI_MODE_APSTA) →
      ev.scan_running = false → ev.scan_done = false →
      (wifi_scan_start env st ev).2 = [WAct.scanReq true WIFI_SCAN_TYPE_ACTIVE] ∧
      (wifi_scan_start env st ev).1.scan_start = true ∧
      (env.scanStartRes = ESP_OK → (wifi_scan_start env st ev).1.scan_running = true) ∧
      (env.scanStartRes ≠ ESP_OK → (wifi_scan_start env st ev).1.scan_running = false)) := by
  have hns : ¬wmngr_state_idle < st := by omega
  unfold wifi_scan_start
  rw [if_neg hns]
  refine ⟨?_, ?_, ?_⟩
  · intro hm h1 h2
    rw [if_neg (by simp [hm]), if_pos ⟨h2, h1⟩]
  · intro hrd
    by_cases hm : env.getModeRes = ESP_OK
    · rw [if_neg (by simp [hm])]
      by_cases hmo : env.mode ≠ WIFI_MODE_APSTA ∧ env.mode ≠ WIFI_MODE_STA
      · rw [if_pos hmo]
        exact ⟨rfl, rfl⟩
      · rw [if_neg hmo]
        rw [if_neg (by rcases hrd with h | h <;> simp [h])]
        exact ⟨rfl, rfl⟩
    · rw [if_pos hm]
      exact ⟨rfl, rfl⟩
  · intro hm hmode hrun hdone
    rw [if_neg (by simp [hm])]
    rw [if_neg (by rcases hmode with h | h <;> simp [h])]
    rw [if_pos ⟨hrun, hdone⟩]
    by_cases hsr : env.scanStartRes = ESP_OK
    · rw [if_pos hsr]
      exact ⟨rfl, rfl, fun _ => rfl, fun hne => absurd hsr hne⟩
    · rw [if_neg hsr]
      exact ⟨rfl, rfl, fun hok => absurd hok hsr, fun _ => hrun⟩

/-- C7 amended witness: the issuing branch evaluated at idle with STA
mode and empty event bits. -/
theorem wifi_scan_start_spec_witness :
    (wifi_scan_start scanEnvW wmngr_state_idle noEvents).2 =
      [WAct.scanReq true WIFI_SCAN_TYPE_ACTIVE] ∧
    (wifi_scan_start scanEnvW wmngr_state_idle noEvents).1.scan_start = true ∧
    (scanEnvW.scanStartRes = ESP_OK →
      (wifi_scan_start scanEnvW wmngr_state_idle noEvents).1.scan_running = true) ∧
    (scanEnvW.scanStartRes ≠ ESP_OK →
      (wifi_scan_start scanEnvW wmngr_state_idle noEvents).1.scan_running = false) :=
  (wifi_scan_start_spec scanEnvW wmngr_state_idle noEvents (by decide)).2.2 rfl
    (Or.inl rfl) rfl rfl

/-- A config agreeing with the raw radio snapshot of radioW (mode STA,
sta blob 5) in every section the claim compares. -/
def cfgMatchSnap : WifiCfg := { zeroWifiCfg with mode := WIFI_MODE_STA, sta := 5 }

/-- C10 counterexample: in the stable idle state with the station not
connected, cfgMatchSnap equals the raw radio snapshot in mode and in the
STA section (and is not AP-bearing), yet esp_wmngr_set_cfg does arm an
update: the comparison in the source is made against cfg_state.saved
after its sta section was zeroed (station not connected), so the call
returns ESP_OK with state moved to update and the wake-up armed,
contradicting the claimed state-unchanged / no-wake-up conclusion. -/
theorem set_cfg_frame_counterexample :
    (get_wifi_cfg false radioW).1 = ESP_OK ∧
    cfgMatchSnap.mode = (get_wifi_cfg false radioW).2.mode ∧
    cfgMatchSnap.sta = (get_wifi_cfg false radioW).2.sta ∧
    csIdleZ.state ≤ wmngr_state_idle ∧
    (esp_wmngr_set_cfg true true false radioW csIdleZ cfgMatchSnap).1 = ESP_OK ∧
    (esp_wmngr_set_cfg true true false radioW csIdleZ cfgMatchSnap).2.1.state =
      wmngr_state_update ∧
    (esp_wmngr_set_cfg true true false radioW csIdleZ cfgMatchSnap).2.2 = true :=
  ⟨rfl, rfl, rfl, by decide, rfl, rfl, rfl⟩

/-- The value esp_wmngr_set_cfg records into cfg_state.saved: the radio
snapshot, with its sta section cleared when the station is not currently
connected. -/
def saved_after_snapshot (c : Bool) (env : RadioEnv) : WifiCfg :=
  if c = false then { (get_wifi_cfg c env).2 with sta := 0 } else (get_wifi_cfg c env).2

/-- C10 amended: when, in a stable state, the new config X does not
differ from the recorded saved config (the radio snapshot with sta zeroed
if the station is not connected) in mode, nor in the AP section when X is
AP-bearing, nor in the STA section when X is STA-bearing, then
esp_wmngr_set_cfg returns ESP_OK, the state is unchanged and no wake-up
is armed, yet saved and new are still overwritten: saved becomes that
recorded snapshot and new becomes X with is_default forced to false. -/
theorem set_cfg_nochange_overwrites (cs : CfgState) (env : RadioEnv) (t c : Bool)
    (X : WifiCfg) (hs : cs.state ≤ wmngr_state_idle)
    (hg : (get_wifi_cfg c env).1 = ESP_OK)
    (hm1 : X.mode = (saved_after_snapshot c env).mode)
    (hm2 : X.mode = WIFI_MODE_AP ∨ X.mode = WIFI_MODE_APSTA →
      X.ap = (saved_after_snapshot c env).ap)
    (hm3 : X.mode = WIFI_MODE_STA ∨ X.mode = WIFI_MODE_APSTA →
      X.sta = (saved_after_snapshot c env).sta) :
    esp_wmngr_set_cfg true t c env cs X =
      (ESP_OK, { cs with
        saved := saved_after_snapshot c env,
        new := { X with is_default := false } }, false) := by
  cases c
  · simp only [esp_wmngr_set_cfg]
    rw [if_neg (by simp), if_neg (by omega), if_neg (by simp [hg])]
    rw [if_neg ?hcond]
    case hcond =>
      simp only [decide_eq_true_eq, not_or]
      exact ⟨fun hne => hne hm1, fun h => h.2 (hm2 h.1), fun h => h.2 (hm3 h.1)⟩
    rfl
  · simp only [esp_wmngr_set_cfg]
    rw [if_neg (by simp), if_neg (by omega), if_neg (by simp [hg])]
    rw [if_neg ?hcond2]
    case hcond2 =>
      simp only [decide_eq_true_eq, not_or]
      exact ⟨fun hne => hne hm1, fun h => h.2 (hm2 h.1), fun h => h.2 (hm3 h.1)⟩
    rfl

/-- Radio environment whose STA section is all-zero. -/
def radioZ : RadioEnv := ⟨ESP_OK, WIFI_MODE_STA, ESP_OK, 0, ESP_OK, false, [], [], ESP_OK, ⟨0, 0⟩⟩

/-- A config equal to the recorded saved config of radioZ in every
compared section. -/
def cfgStaZ : WifiCfg := { zeroWifiCfg with mode := WIFI_MODE_STA }

/-- C10 amended witness: the no-difference call evaluated at idle. -/
theorem set_cfg_nochange_overwrites_witness :
    esp_wmngr_set_cfg true true false radioZ csIdleZ cfgStaZ =
      (ESP_OK, { csIdleZ with
        saved := saved_after_snapshot false radioZ,
        new := { cfgStaZ with is_default := false } }, false) :=
  set_cfg_nochange_overwrites csIdleZ radioZ true false cfgStaZ (by decide) rfl rfl
    (fun _ => rfl) (fun _ => rfl)
